import Mathlib

/-! Sky-island phenology pipeline (`scripts/gee/modis-phenology-pipeline.js`).

A shallow embedding of the Earth Engine script that builds elevation bands from SRTM,
prepares and merges the Terra and Aqua MODIS EVI collections, draws sample points,
and exports per-point and per-band phenology tables.

Modelling conventions.
* A raster band is a function from grid cells to `Option ℚ`; `none` is a masked cell.
* Numbers are rationals: the script's `0.0001` is read as `1/10000`.
* A collection is a list of its elements in collection order.
* A region (`catGeom` at a given scale) is the finite list of grid cells it covers.
-/

namespace Phenology

/-! ## Rasters -/

/-- A grid cell of a raster. -/
abbrev Pixel := Int × Int

/-- One band of an image: the value at each cell, `none` where the cell is masked. -/
abbrev Band := Pixel → Option ℚ

/-- Truth value of a comparison as Earth Engine stores it: 1 for true, 0 for false. -/
def boolVal (b : Bool) : ℚ := if b then 1 else 0

/-- Pixel value of `a.lte(c)` for a constant `c`. -/
def lteV (a : Option ℚ) (c : ℚ) : Option ℚ := a.map (fun v => boolVal (decide (v ≤ c)))

/-- Pixel value of `a.gt(c)` for a constant `c`. -/
def gtV (a : Option ℚ) (c : ℚ) : Option ℚ := a.map (fun v => boolVal (decide (v > c)))

/-- Pixel value of `a.and(b)`: 1 when both operands are non-zero. -/
def andV (a b : Option ℚ) : Option ℚ :=
  match a, b with
  | some x, some y => some (boolVal (decide (x ≠ 0) && decide (y ≠ 0)))
  | _, _ => none

/-- Pixel value of `input.where(test, value)`: the constant where the test is non-zero,
the input value elsewhere; a masked input stays masked. -/
def whereV (input test : Option ℚ) (value : ℚ) : Option ℚ :=
  match input with
  | none => none
  | some v =>
    match test with
    | some t => if t ≠ 0 then some value else some v
    | none => some v

/-- Pixel value of `image.updateMask(mask)`: kept only where the mask is present and
non-zero. -/
def updateMaskV (v mask : Option ℚ) : Option ℚ :=
  match mask with
  | some m => if m ≠ 0 then v else none
  | none => none

/-! ## Section 2: elevation bands -/

/-- Zone value at one SRTM pixel, lines 33-35: the three chained `where` calls of
`band250`, each test evaluated on the original `srtm` pixel. -/
def zoneV (q1 q2 : ℚ) (srtm : Option ℚ) : Option ℚ :=
  whereV
    (whereV
      (whereV srtm (lteV srtm q1) 1)
      (andV (gtV srtm q1) (lteV srtm q2)) 2)
    (gtV srtm q2) 3

/-- The classified band `elev_band` at native resolution (lines 33-36, before
`reduceResolution` and `reproject`). -/
def elevBandNative (q1 q2 : ℚ) (srtm : Band) : Band := fun p => zoneV q1 q2 (srtm p)

/-- The elevation ramp of the unit-square scenario: elevation `100 * x` at easting `x`. -/
def rampElevation (x : ℚ) : ℚ := 100 * x

/-- Zone of the ramp pixel at easting `x` for the thresholds 33 and 67. -/
def rampZone (x : ℚ) : Option ℚ := zoneV 33 67 (some (rampElevation x))

/-! ## Calendar fields of a timestamp

`system:time_start` is in milliseconds since 1970-01-01T00:00Z; `img.date()` reads it.
The conversion is the proleptic Gregorian calendar in UTC. -/

/-- Milliseconds in a day. -/
def msPerDay : Int := 86400000

/-- Days since 1970-01-01 of the civil date `y-m-d`. -/
def daysFromCivil (y m d : Int) : Int :=
  let y1 := if m ≤ 2 then y - 1 else y
  let era := y1 / 400
  let yoe := y1 - era * 400
  let mp := if m > 2 then m - 3 else m + 9
  let doy := (153 * mp + 2) / 5 + d - 1
  let doe := yoe * 365 + yoe / 4 - yoe / 100 + doy
  era * 146097 + doe - 719468

/-- Civil date `(year, month, day)` of a day number counted from 1970-01-01. -/
def civilFromDays (days : Int) : Int × Int × Int :=
  let z := days + 719468
  let era := z / 146097
  let doe := z - era * 146097
  let yoe := (doe - doe / 1460 + doe / 36524 - doe / 146096) / 365
  let y := yoe + era * 400
  let doy := doe - (365 * yoe + yoe / 4 - yoe / 100)
  let mp := (5 * doy + 2) / 153
  let d := doy - (153 * mp + 2) / 5 + 1
  let m := if mp < 10 then mp + 3 else mp - 9
  (if m ≤ 2 then y + 1 else y, m, d)

/-- Calendar year of a timestamp: `img.date().get('year')`. -/
def yearOf (t : Int) : Int := (civilFromDays (t / msPerDay)).1

/-- Zero-based day of the year of a timestamp: `img.date().getRelative('day', 'year')`. -/
def doyOf (t : Int) : Int := t / msPerDay - daysFromCivil (yearOf t) 1 1

/-- Decimal rendering of a non-negative number, left-padded with zeros to width `w`. -/
def padZero (w : Nat) (n : Int) : String :=
  let s := toString n.toNat
  String.mk (List.replicate (w - s.length) '0') ++ s

/-- Date string of a timestamp: `img.date().format('YYYY-MM-dd')`. -/
def formatDate (t : Int) : String :=
  let c := civilFromDays (t / msPerDay)
  padZero 4 c.1 ++ "-" ++ padZero 2 c.2.1 ++ "-" ++ padZero 2 c.2.2

/-! ## Section 1: parameters -/

/-- Start of the time window, `'2000-02-18'`, in milliseconds. -/
def START : Int := daysFromCivil 2000 2 18 * msPerDay

/-- End of the time window, `'2024-12-31'`, in milliseconds. -/
def END : Int := daysFromCivil 2024 12 31 * msPerDay

/-- Number of sample points kept. -/
def N_SAMPLES : Nat := 500

/-! ## Section 3: combined Terra + Aqua collection -/

/-- An image of a source catalogue collection (`MOD13Q1`, `MYD13Q1`): its named bands and
its `system:time_start`. -/
structure SourceImage where
  /-- Named bands in band order. -/
  bands : List (String × Band)
  /-- Acquisition time in milliseconds since the epoch. -/
  time_start : Int

/-- An image produced by `preparePhenologyCollection`: bands plus the properties the
mapping function sets or copies. -/
structure Image where
  /-- Named bands in band order. -/
  bands : List (String × Band)
  /-- Property `satellite`. -/
  satellite : String
  /-- Property `year`. -/
  year : Int
  /-- Property `doy`. -/
  doy : Int
  /-- Property `system:time_start`. -/
  time_start : Int

/-- Band `name` of a band list, as `select(name)` finds it; `none` when the image has no
such band (Earth Engine raises an error). -/
def selectBand (name : String) (bands : List (String × Band)) : Option Band :=
  bands.lookup name

/-- The body of the function mapped over the source collection (lines 44-57). The empty
`ee.Image()` contributes one fully masked band `constant`; `updateMask(keep)` applies to
every band of the stacked image. -/
def prepareImage (satelliteName : String) (img : SourceImage) : Option Image :=
  match selectBand "SummaryQA" img.bands, selectBand "EVI" img.bands with
  | some qa, some raw =>
    let keep : Band := fun p => lteV (qa p) 1
    let evi : Band := fun p => (raw p).map (fun v => v * (1 / 10000))
    let stacked : List (String × Band) := [("constant", fun _ => none), ("EVI", evi)]
    some {
      bands := stacked.map (fun b => (b.1, fun p => updateMaskV (b.2 p) (keep p)))
      satellite := satelliteName
      year := yearOf img.time_start
      doy := doyOf img.time_start
      time_start := img.time_start }
  | _, _ => none

/-- Mapping a fallible function over a collection: the result exists when every element
maps. -/
def mapAll {α β : Type} (f : α → Option β) : List α → Option (List β)
  | [] => some []
  | a :: l =>
    match f a, mapAll f l with
    | some b, some bs => some (b :: bs)
    | _, _ => none

/-- Lines 41-58: `filterBounds(catGeom)`, `filterDate(START, END)` and the mapped function.
`inBounds` tells whether an image footprint meets the AOI. -/
def preparePhenologyCollection (inBounds : SourceImage → Bool) (collection : List SourceImage)
    (satelliteName : String) : Option (List Image) :=
  mapAll (prepareImage satelliteName)
    ((collection.filter inBounds).filter
      (fun img => decide (START ≤ img.time_start) && decide (img.time_start < END)))

/-- Ordering used by `sort('system:time_start')`: ascending on that one property. -/
def timeLE (a b : Image) : Prop := a.time_start ≤ b.time_start

instance : DecidableRel timeLE := fun a b => inferInstanceAs (Decidable (a.time_start ≤ b.time_start))

instance : IsTotal Image timeLE := ⟨fun a b => le_total a.time_start b.time_start⟩

instance : IsTrans Image timeLE :=
  ⟨fun a b c (h1 : a.time_start ≤ b.time_start) (h2 : b.time_start ≤ c.time_start) =>
    le_trans h1 h2⟩

/-- Line 62: `terraCol.merge(aquaCol).sort('system:time_start')`. The result holds every
image of both collections in ascending order of the single key `system:time_start`. The
script fixes neither the element order of `merge` nor the order `sort` gives to images with
equal keys; the insertion sort over the appended lists used here is one such order, and only
the permutation and the ascending order are relied on. -/
def modisCol (terraCol aquaCol : List Image) : List Image :=
  (terraCol ++ aquaCol).insertionSort timeLE

/-- Lines 72-74: `img.addBands(band250)` on every image of `modisCol`. -/
def modisWithBand (band250 : Band) (col : List Image) : List Image :=
  col.map (fun img => { img with bands := img.bands ++ [("elev_band", band250)] })

/-! ## Section 4: sample points and per-point time series -/

/-- A feature of the sampled image `ee.Image.random(42).addBands(ee.Image.pixelLonLat())`:
the three band values at one 250 m cell and the cell that holds the point geometry. -/
structure SamplePoint where
  /-- Band `random`. -/
  random : ℚ
  /-- Band `longitude`. -/
  longitude : ℚ
  /-- Band `latitude`. -/
  latitude : ℚ
  /-- The 250 m grid cell containing the point. -/
  cell : Pixel
deriving DecidableEq

/-- Sort order of `sort('random')`. -/
def randomLE (a b : SamplePoint) : Prop := a.random ≤ b.random

instance : DecidableRel randomLE := fun a b => inferInstanceAs (Decidable (a.random ≤ b.random))

/-- The call `sample` of lines 80-86 over the cells of the region at the requested scale: when
the region holds no more than `numPixels` cells every cell is a candidate; otherwise the
platform thins the cells at random, which `thin` stands for. -/
def sample (thin : List SamplePoint → List SamplePoint) (regionCells : List SamplePoint)
    (numPixels : Nat) : List SamplePoint :=
  if regionCells.length ≤ numPixels then regionCells else thin regionCells

/-- Lines 79-87: candidates from `sample` with `numPixels: 2000`, sorted by `random`, cut
to the first `N_SAMPLES`. -/
def pts (thin : List SamplePoint → List SamplePoint) (regionCells : List SamplePoint) :
    List SamplePoint :=
  ((sample thin regionCells 2000).insertionSort randomLE).take N_SAMPLES

/-- Bands of `select(names)` in the order of `names`; `none` when a band is absent. -/
def selectBands (names : List String) (bands : List (String × Band)) :
    Option (List (String × Band)) :=
  mapAll (fun n => (selectBand n bands).map (fun b => (n, b))) names

/-- Values of all bands at one cell; `none` as soon as one band is masked there. -/
def sampleBands (bands : List (String × Band)) (p : Pixel) : Option (List (String × ℚ)) :=
  mapAll (fun b => (b.2 p).map (fun v => (b.1, v))) bands

/-- `sampleRegions` with `geometries: false`: one output feature per input point whose cell is
unmasked in every band, carrying the point properties and the band values; points on a
masked cell give no feature. -/
def sampleRegions (bands : List (String × Band)) (collection : List SamplePoint) :
    List (SamplePoint × List (String × ℚ)) :=
  collection.filterMap (fun pt => (sampleBands bands pt.cell).map (fun vs => (pt, vs)))

/-- A row of the per-point table: the properties of the sample point, the sampled band
values, and the four properties set at lines 97-102. -/
structure SampleRecord where
  /-- Properties inherited from the sample point (`random`, `longitude`, `latitude`). -/
  point : SamplePoint
  /-- Sampled band values by band name. -/
  values : List (String × ℚ)
  /-- Property `date`. -/
  date : String
  /-- Property `satellite`. -/
  satellite : String
  /-- Property `year`. -/
  year : Int
  /-- Property `doy`. -/
  doy : Int

/-- A band-valued property of a row; `none` is a null field. -/
def SampleRecord.get (r : SampleRecord) (name : String) : Option ℚ := r.values.lookup name

/-- Lines 89-104. -/
def sampleForPhenology (points : List SamplePoint) (img : Image) : Option (List SampleRecord) :=
  let dateStr := formatDate img.time_start
  (selectBands ["EVI", "elev_band"] img.bands).map (fun selected =>
    (sampleRegions selected points).map (fun f =>
      { point := f.1
        values := f.2
        date := dateStr
        satellite := img.satellite
        year := yearOf img.time_start
        doy := doyOf img.time_start }))

/-- Line 106: the flattened per-point table over `modisWithBand`. -/
def phenoPts (points : List SamplePoint) (withBand : List Image) : Option (List SampleRecord) :=
  (mapAll (sampleForPhenology points) withBand).map List.flatten

/-! ## Section 4, option B: per-band statistics -/

/-- Arithmetic mean, `ee.Reducer.mean()` with unit weights. -/
def mean (xs : List ℚ) : ℚ := xs.sum / xs.length

/-- Population variance; `ee.Reducer.stdDev()` is its square root. -/
def variance (xs : List ℚ) : ℚ := (xs.map (fun x => (x - mean xs) ^ 2)).sum / xs.length

/-- One dictionary of the `groups` list of a grouped reduction. -/
structure Group where
  /-- Group key, named `elev_band` by `group(1, 'elev_band')`. -/
  elev_band : ℚ
  /-- Output `mean`. -/
  mean : ℚ
  /-- Square of output `stdDev`. -/
  stdDevSq : ℚ
  /-- Output `count`. -/
  count : Nat

/-- Rows fed to the grouped reducer: the cells of the region where both inputs (band 0 the
value, band 1 the group key) are unmasked. -/
def reducerRows (value key : Band) (geometry : List Pixel) : List (ℚ × ℚ) :=
  geometry.filterMap (fun p =>
    match value p, key p with
    | some v, some k => some (v, k)
    | _, _ => none)

/-- Lines 120-129: `reduceRegion` with mean, stdDev and count sharing input 0 and grouped by
input 1. One group per distinct key among the rows, in ascending key order. -/
def reduceRegionGrouped (value key : Band) (geometry : List Pixel) : List Group :=
  let rows := reducerRows value key geometry
  let keys := ((rows.map Prod.snd).dedup).insertionSort (fun a b => a ≤ b)
  keys.map (fun k =>
    let vs := (rows.filter (fun r => r.2 = k)).map Prod.fst
    { elev_band := k, mean := mean vs, stdDevSq := variance vs, count := vs.length })

/-- A row of the per-band table (lines 134-143). `EVI_std_sq` holds the square of the
exported `EVI_std`. -/
structure StatRecord where
  /-- Property `date`. -/
  date : String
  /-- Property `year`. -/
  year : Int
  /-- Property `doy`. -/
  doy : Int
  /-- Property `satellite`. -/
  satellite : String
  /-- Property `elev_band`. -/
  elev_band : ℚ
  /-- Property `EVI_mean`. -/
  EVI_mean : ℚ
  /-- Square of property `EVI_std`. -/
  EVI_std_sq : ℚ
  /-- Property `n_pixels`. -/
  n_pixels : Nat

/-- Lines 116-145; `catGeom` is the list of 250 m cells of the AOI. -/
def bandPhenologyStats (catGeom : List Pixel) (band250 : Band) (img : Image) :
    Option (List StatRecord) :=
  let dateStr := formatDate img.time_start
  (selectBand "EVI" img.bands).map (fun evi =>
    (reduceRegionGrouped evi band250 catGeom).map (fun d =>
      { date := dateStr
        year := yearOf img.time_start
        doy := doyOf img.time_start
        satellite := img.satellite
        elev_band := d.elev_band
        EVI_mean := d.mean
        EVI_std_sq := d.stdDevSq
        n_pixels := d.count }))

/-- Line 147: the flattened per-band table over `modisWithBand`. -/
def bandPheno (catGeom : List Pixel) (band250 : Band) (withBand : List Image) :
    Option (List StatRecord) :=
  (mapAll (bandPhenologyStats catGeom band250) withBand).map List.flatten

/-! ## Section 6: data quality check -/

/-- A feature of the annual data summary (lines 190-196). -/
structure SummaryRow where
  /-- Property `year`. -/
  year : Int
  /-- Property `total_obs`. -/
  total_obs : Nat
  /-- Property `terra_obs`. -/
  terra_obs : Nat
  /-- Property `aqua_obs`. -/
  aqua_obs : Nat
  /-- Property `data_density`. -/
  data_density : ℚ

/-- Line 184: `ee.List.sequence(2003, 2023)`. -/
def years : List Int := (List.range 21).map (fun i => 2003 + (i : Int))

/-- The filter `ee.Filter.calendarRange(year, year, 'year')` applied to a collection. -/
def filterYear (year : Int) (col : List Image) : List Image :=
  col.filter (fun img => decide (yearOf img.time_start = year))

/-- Lines 185-197. -/
def dataSummary (terraCol aquaCol : List Image) : List SummaryRow :=
  years.map (fun year =>
    let yearData := filterYear year (modisCol terraCol aquaCol)
    let terraCount := (filterYear year terraCol).length
    let aquaCount := (filterYear year aquaCol).length
    { year := year
      total_obs := yearData.length
      terra_obs := terraCount
      aqua_obs := aquaCount
      data_density := (yearData.length : ℚ) / 23 })

/-! ## Example data -/

/-- A source image of 2003-01-01 with a raw EVI of 2500 everywhere; its quality flag is 0 on
the cell `(0, 0)` and 2 elsewhere. -/
def exampleSource : SourceImage :=
  { bands := [("EVI", fun _ => some 2500),
              ("SummaryQA", fun p => if p = (0, 0) then some 0 else some 2)]
    time_start := 1041379200000 }

/-- A prepared Terra image of 2003-01-01 with the elevation band attached: EVI is 1/4 on the
cells `(0, 0)` and `(0, 1)` and masked elsewhere; the zone is 1 on column 0 and 2 elsewhere. -/
def exampleTerra : Image :=
  { bands := [("constant", fun _ => none),
              ("EVI", fun p => if p = (0, 0) ∨ p = (0, 1) then some (1 / 4) else none),
              ("elev_band", fun p => if p.1 = 0 then some 1 else some 2)]
    satellite := "Terra"
    year := 2003
    doy := 0
    time_start := 1041379200000 }

/-- An AOI of three 250 m cells, each with its `random`, `longitude` and `latitude`. -/
def exampleRegion : List SamplePoint :=
  [⟨3 / 4, 0, 0, (0, 0)⟩, ⟨1 / 4, 0, 1, (0, 1)⟩, ⟨1 / 2, 1, 0, (1, 0)⟩]

/-- The zone band of the example: zone 1 on column 0, zone 2 elsewhere. -/
def exampleBand250 : Band := fun p => if p.1 = 0 then some 1 else some 2

/-- The three cells of the example AOI. -/
def exampleGeom : List Pixel := [(0, 0), (0, 1), (1, 0)]

/-! ## Theorems: elevation bands -/

theorem zoneV_some (q1 q2 v : ℚ) :
    zoneV q1 q2 (some v) =
      some (if v > q2 then 3 else if v > q1 ∧ v ≤ q2 then 2 else if v ≤ q1 then 1 else v) := by
  unfold zoneV whereV lteV gtV andV boolVal
  by_cases h1 : v ≤ q1 <;> by_cases h2 : v ≤ q2 <;> by_cases h3 : v > q1 <;>
    by_cases h4 : v > q2 <;> simp [h1, h2, h3, h4]

theorem zoneV_low (q1 q2 v : ℚ) (h : q1 ≤ q2) (hv : v ≤ q1) : zoneV q1 q2 (some v) = some 1 := by
  have h2 : ¬ v > q2 := not_lt.mpr (le_trans hv h)
  have h1 : ¬ v > q1 := not_lt.mpr hv
  simp [zoneV_some, h1, h2, hv]

theorem zoneV_mid (q1 q2 v : ℚ) (h1 : q1 < v) (h2 : v ≤ q2) : zoneV q1 q2 (some v) = some 2 := by
  have h3 : ¬ v > q2 := not_lt.mpr h2
  simp [zoneV_some, h1, h2, h3]

theorem zoneV_high (q1 q2 v : ℚ) (h : q2 < v) : zoneV q1 q2 (some v) = some 3 := by
  simp [zoneV_some, h]

/-- C1: for thresholds `q1 ≤ q2` the chained `where` expression of `band250` gives an
unmasked elevation `v` zone 1 when `v ≤ q1`, zone 2 when `q1 < v ≤ q2` and zone 3 when
`v > q2`; an elevation equal to a threshold gets the lower adjacent zone. -/
theorem band250_zone_rule (q1 q2 : ℚ) (h : q1 ≤ q2) (srtm : Band) (p : Pixel) (v : ℚ)
    (hv : srtm p = some v) :
    (v ≤ q1 → elevBandNative q1 q2 srtm p = some 1) ∧
    (q1 < v → v ≤ q2 → elevBandNative q1 q2 srtm p = some 2) ∧
    (q2 < v → elevBandNative q1 q2 srtm p = some 3) ∧
    (v = q1 → elevBandNative q1 q2 srtm p = some 1) ∧
    (v = q2 → q1 < q2 → elevBandNative q1 q2 srtm p = some 2) := by
  unfold elevBandNative
  rw [hv]
  refine ⟨zoneV_low q1 q2 v h, zoneV_mid q1 q2 v, zoneV_high q1 q2 v, ?_, ?_⟩
  · intro e
    exact zoneV_low q1 q2 v h (le_of_eq e)
  · intro e hlt
    exact zoneV_mid q1 q2 v (e ▸ hlt) (le_of_eq e)

/-- Instance of C1 at thresholds 33 and 67 for a pixel of elevation exactly 33. -/
theorem band250_zone_rule_witness :
    ((33 : ℚ) ≤ 33 → elevBandNative 33 67 (fun _ => some 33) (0, 0) = some 1) ∧
    ((33 : ℚ) < 33 → (33 : ℚ) ≤ 67 → elevBandNative 33 67 (fun _ => some 33) (0, 0) = some 2) ∧
    ((67 : ℚ) < 33 → elevBandNative 33 67 (fun _ => some 33) (0, 0) = some 3) ∧
    ((33 : ℚ) = 33 → elevBandNative 33 67 (fun _ => some 33) (0, 0) = some 1) ∧
    ((33 : ℚ) = 67 → (33 : ℚ) < 67 → elevBandNative 33 67 (fun _ => some 33) (0, 0) = some 2) :=
  band250_zone_rule 33 67 (by norm_num) (fun _ => some 33) (0, 0) 33 rfl

/-- C8 (as stated, refuted): the ramp pixel at `x = 0.33` lies in `[0.33, 0.67)` but is
assigned zone 1, and the pixel at `x = 0.67` lies in `[0.67, 1]` but is assigned zone 2. -/
theorem rampZone_boundary_counterexample :
    ((33 / 100 : ℚ) ≤ 33 / 100 ∧ (33 / 100 : ℚ) < 67 / 100) ∧
    rampZone (33 / 100) = some 1 ∧ rampZone (33 / 100) ≠ some 2 ∧
    ((67 / 100 : ℚ) ≤ 67 / 100 ∧ (67 / 100 : ℚ) ≤ 1) ∧
    rampZone (67 / 100) = some 2 ∧ rampZone (67 / 100) ≠ some 3 := by
  have e1 : rampZone (33 / 100) = some 1 := by
    unfold rampZone rampElevation
    exact zoneV_low 33 67 _ (by norm_num) (by norm_num)
  have e2 : rampZone (67 / 100) = some 2 := by
    unfold rampZone rampElevation
    exact zoneV_mid 33 67 _ (by norm_num) (by norm_num)
  refine ⟨by norm_num, e1, ?_, by norm_num, e2, ?_⟩
  · rw [e1]; norm_num
  · rw [e2]; norm_num

/-- C8 (amended): on the ramp `e(x) = 100 * x` with thresholds 33 and 67, zone 1 is
exactly `x ≤ 0.33`, zone 2 exactly `0.33 < x ≤ 0.67`, zone 3 exactly `0.67 < x`. -/
theorem rampZone_rule (x : ℚ) :
    (rampZone x = some 1 ↔ x ≤ 33 / 100) ∧
    (rampZone x = some 2 ↔ 33 / 100 < x ∧ x ≤ 67 / 100) ∧
    (rampZone x = some 3 ↔ 67 / 100 < x) := by
  unfold rampZone rampElevation
  rcases le_or_lt (100 * x) 33 with h1 | h1
  · rw [zoneV_low 33 67 _ (by norm_num) h1]
    refine ⟨⟨fun _ => by linarith, fun _ => rfl⟩, ⟨fun e => ?_, fun e => ?_⟩,
      ⟨fun e => ?_, fun e => ?_⟩⟩
    · norm_num at e
    · exfalso; linarith [e.1]
    · norm_num at e
    · exfalso; linarith
  · rcases le_or_lt (100 * x) 67 with h2 | h2
    · rw [zoneV_mid 33 67 _ h1 h2]
      refine ⟨⟨fun e => ?_, fun e => ?_⟩, ⟨fun _ => ⟨by linarith, by linarith⟩, fun _ => rfl⟩,
        ⟨fun e => ?_, fun e => ?_⟩⟩
      · norm_num at e
      · exfalso; linarith
      · norm_num at e
      · exfalso; linarith
    · rw [zoneV_high 33 67 _ h2]
      refine ⟨⟨fun e => ?_, fun e => ?_⟩, ⟨fun e => ?_, fun e => ?_⟩,
        ⟨fun _ => by linarith, fun _ => rfl⟩⟩
      · norm_num at e
      · exfalso; linarith
      · norm_num at e
      · exfalso; linarith [e.2]

/-! ## Theorems: preparing and merging the collections -/

theorem lookup_evi_stacked (a b : Band) :
    selectBand "EVI" [("constant", a), ("EVI", b)] = some b := by
  unfold selectBand
  rw [List.lookup_cons, List.lookup_cons]
  have h1 : ("EVI" == "constant") = false := by decide
  have h2 : ("EVI" == "EVI") = true := by decide
  simp [h1, h2]

/-- C2: when the source image has the bands `SummaryQA` and `EVI`, the mapped function
returns an image whose band `EVI` is masked at every pixel with `SummaryQA > 1` (as is
every other band of the result) and holds `raw EVI * 1/10000` at every pixel with
`SummaryQA ≤ 1` and a present raw EVI. The function is pure: the input is a value. -/
theorem prepareImage_mask_and_scale (satelliteName : String) (img : SourceImage) (qa raw : Band)
    (hqa : selectBand "SummaryQA" img.bands = some qa)
    (hraw : selectBand "EVI" img.bands = some raw) :
    ∃ out evi, prepareImage satelliteName img = some out ∧
      selectBand "EVI" out.bands = some evi ∧
      (∀ p q, qa p = some q → q > 1 → evi p = none ∧ ∀ b ∈ out.bands, b.2 p = none) ∧
      (∀ p q r, qa p = some q → q ≤ 1 → raw p = some r → evi p = some (r * (1 / 10000))) := by
  unfold prepareImage
  rw [hqa, hraw]
  refine ⟨_, _, rfl, lookup_evi_stacked _ _, ?_, ?_⟩
  · intro p q hq hgt
    have hk : lteV (qa p) 1 = some 0 := by
      simp [lteV, hq, boolVal, not_le.mpr hgt]
    refine ⟨by simp [updateMaskV, hk], ?_⟩
    intro b hb
    simp only [List.map_cons, List.map_nil, List.mem_cons, List.mem_singleton,
      List.not_mem_nil, or_false] at hb
    rcases hb with rfl | rfl <;> simp [updateMaskV, hk]
  · intro p q r hq hle hr
    have hk : lteV (qa p) 1 = some 1 := by
      simp [lteV, hq, boolVal, hle]
    simp [updateMaskV, hk, hr]

/-- Instance of C2 on `exampleSource`. -/
theorem prepareImage_mask_and_scale_witness :
    selectBand "SummaryQA" exampleSource.bands
        = some (fun p => if p = (0, 0) then some 0 else some 2) ∧
    selectBand "EVI" exampleSource.bands = some (fun _ => some 2500) ∧
    ∃ out evi, prepareImage "Terra" exampleSource = some out ∧
      selectBand "EVI" out.bands = some evi ∧
      (∀ p q, (if p = ((0 : Int), (0 : Int)) then some (0 : ℚ) else some 2) = some q → q > 1 →
        evi p = none ∧ ∀ b ∈ out.bands, b.2 p = none) ∧
      (∀ p q r, (if p = ((0 : Int), (0 : Int)) then some (0 : ℚ) else some 2) = some q → q ≤ 1 →
        some (2500 : ℚ) = some r → evi p = some (r * (1 / 10000))) :=
  ⟨rfl, rfl, prepareImage_mask_and_scale "Terra" exampleSource _ _ rfl rfl⟩

theorem modisCol_perm (terraCol aquaCol : List Image) :
    (modisCol terraCol aquaCol).Perm (terraCol ++ aquaCol) :=
  List.perm_insertionSort timeLE (terraCol ++ aquaCol)

/-- The merged series is in ascending order of `system:time_start`, for any order the sort
gives to images with equal timestamps. -/
theorem modisCol_sorted (terraCol aquaCol : List Image) :
    (modisCol terraCol aquaCol).Sorted timeLE :=
  List.sorted_insertionSort timeLE _

/-- C4: the merged series is a permutation of the concatenation of the two collections and
its length is the sum of their lengths. -/
theorem modisCol_length_perm (terraCol aquaCol : List Image) :
    (modisCol terraCol aquaCol).length = terraCol.length + aquaCol.length ∧
    (modisCol terraCol aquaCol).Perm (terraCol ++ aquaCol) := by
  refine ⟨?_, modisCol_perm terraCol aquaCol⟩
  rw [(modisCol_perm terraCol aquaCol).length_eq, List.length_append]

theorem filterYear_modisCol_length (year : Int) (terraCol aquaCol : List Image) :
    (filterYear year (modisCol terraCol aquaCol)).length
      = (filterYear year terraCol).length + (filterYear year aquaCol).length := by
  unfold filterYear
  rw [((modisCol_perm terraCol aquaCol).filter _).length_eq, List.filter_append,
    List.length_append]

/-- C10: for every year the merged collection filtered to that year has as many images as
the two collections filtered separately, and in every row of the annual summary
`total_obs = terra_obs + aqua_obs`. -/
theorem dataSummary_total_eq_sum (terraCol aquaCol : List Image) :
    (∀ year : Int, (filterYear year (modisCol terraCol aquaCol)).length
      = (filterYear year terraCol).length + (filterYear year aquaCol).length) ∧
    (dataSummary terraCol aquaCol).map SummaryRow.total_obs
      = (dataSummary terraCol aquaCol).map (fun r => r.terra_obs + r.aqua_obs) ∧
    (dataSummary terraCol aquaCol).map SummaryRow.year = years := by
  refine ⟨fun year => filterYear_modisCol_length year terraCol aquaCol, ?_, ?_⟩
  · unfold dataSummary
    simp only [List.map_map]
    apply List.map_congr_left
    intro year _
    exact filterYear_modisCol_length year terraCol aquaCol
  · unfold dataSummary
    simp only [List.map_map]
    exact List.map_id _

/-! ## Theorems: sample points -/

theorem length_pts_eq_min (thin : List SamplePoint → List SamplePoint)
    (regionCells : List SamplePoint) :
    (pts thin regionCells).length = min N_SAMPLES (sample thin regionCells 2000).length := by
  unfold pts
  rw [List.length_take, List.length_insertionSort]

/-- C9 (as stated, refuted): an AOI of three 250 m cells is not degenerate, yet its sample
point set has three points, not `N_SAMPLES`. -/
theorem pts_small_region_counterexample :
    exampleRegion.length = 3 ∧ (pts id exampleRegion).length = 3 ∧
    (pts id exampleRegion).length ≠ N_SAMPLES := by
  have h : (pts id exampleRegion).length = 3 := by
    rw [length_pts_eq_min]
    decide
  refine ⟨rfl, h, ?_⟩
  rw [h]
  decide

/-- C9 (amended): the sample point set holds `min N_SAMPLES c` points where `c` is the
number of candidates returned by `sample`; it never exceeds `N_SAMPLES = 500`, and an AOI of
at most 2000 cells yields `min 500 (number of cells)` points, so fewer than 500 whenever it
has fewer than 500 cells. -/
theorem pts_length (thin : List SamplePoint → List SamplePoint)
    (regionCells : List SamplePoint) :
    N_SAMPLES = 500 ∧
    (pts thin regionCells).length = min N_SAMPLES (sample thin regionCells 2000).length ∧
    (pts thin regionCells).length ≤ N_SAMPLES ∧
    (regionCells.length ≤ 2000 →
      (pts thin regionCells).length = min N_SAMPLES regionCells.length) ∧
    (regionCells.length < 500 → (pts thin regionCells).length = regionCells.length) := by
  have h := length_pts_eq_min thin regionCells
  refine ⟨rfl, h, ?_, ?_, ?_⟩
  · rw [h]
    exact min_le_left _ _
  · intro hle
    rw [h, sample, if_pos hle]
  · intro hlt
    have hle : regionCells.length ≤ 2000 := by omega
    rw [h, sample, if_pos hle]
    have : regionCells.length ≤ N_SAMPLES := by
      unfold N_SAMPLES
      omega
    exact min_eq_right this

/-- Instance of C9 (amended) on the three cells of `exampleRegion`. -/
theorem pts_length_witness :
    exampleRegion.length < 500 ∧ (pts id exampleRegion).length = exampleRegion.length :=
  ⟨by decide, (pts_length id exampleRegion).2.2.2.2 (by decide)⟩

/-! ## Theorems: per-point sampling -/

theorem selectBands_evi_zone (bands : List (String × Band)) (evi zone : Band)
    (hE : selectBand "EVI" bands = some evi) (hZ : selectBand "elev_band" bands = some zone) :
    selectBands ["EVI", "elev_band"] bands = some [("EVI", evi), ("elev_band", zone)] := by
  simp [selectBands, mapAll, hE, hZ]

theorem sampleBands_evi_zone (evi zone : Band) (p : Pixel) :
    sampleBands [("EVI", evi), ("elev_band", zone)] p =
      match evi p, zone p with
      | some e, some z => some [("EVI", e), ("elev_band", z)]
      | _, _ => none := by
  unfold sampleBands
  cases h1 : evi p <;> cases h2 : zone p <;> simp [mapAll, h1, h2]

theorem sampleRegions_points (evi zone : Band) (points : List SamplePoint) :
    (sampleRegions [("EVI", evi), ("elev_band", zone)] points).map Prod.fst
      = points.filter (fun pt => (evi pt.cell).isSome && (zone pt.cell).isSome) := by
  unfold sampleRegions
  induction points with
  | nil => rfl
  | cons pt rest ih =>
    rw [List.filterMap_cons, sampleBands_evi_zone]
    cases h1 : evi pt.cell <;> cases h2 : zone pt.cell <;>
      simp [List.filter_cons, h1, h2, ih]

theorem sampleRegions_values (evi zone : Band) (points : List SamplePoint)
    (f : SamplePoint × List (String × ℚ))
    (hf : f ∈ sampleRegions [("EVI", evi), ("elev_band", zone)] points) :
    ∃ e z, evi f.1.cell = some e ∧ zone f.1.cell = some z ∧
      f.2 = [("EVI", e), ("elev_band", z)] := by
  unfold sampleRegions at hf
  rw [List.mem_filterMap] at hf
  obtain ⟨pt, _, hpt⟩ := hf
  rw [sampleBands_evi_zone] at hpt
  cases h1 : evi pt.cell <;> cases h2 : zone pt.cell <;> simp [h1, h2] at hpt
  subst hpt
  exact ⟨_, _, h1, h2, rfl⟩

theorem lookup_evi_pair (e z : ℚ) :
    SampleRecord.get ⟨pt, [("EVI", e), ("elev_band", z)], d, s, y, n⟩ "EVI" = some e ∧
    SampleRecord.get ⟨pt, [("EVI", e), ("elev_band", z)], d, s, y, n⟩ "elev_band" = some z := by
  unfold SampleRecord.get
  have h1 : ("EVI" == "EVI") = true := by decide
  have h2 : ("elev_band" == "EVI") = false := by decide
  have h3 : ("elev_band" == "elev_band") = true := by decide
  constructor
  · simp [List.lookup_cons, h1]
  · simp [List.lookup_cons, h2, h3]

/-- C7: for an image that has the bands `EVI` and `elev_band`, `sampleForPhenology` returns
one record for each sample point whose cell is unmasked in both bands, in point order, and
none for the other points; every record holds the two band values (neither is null) and the
date, year, day of year and satellite of the image. -/
theorem sampleForPhenology_inner_join (points : List SamplePoint) (img : Image)
    (evi zone : Band) (hE : selectBand "EVI" img.bands = some evi)
    (hZ : selectBand "elev_band" img.bands = some zone) :
    ∃ recs, sampleForPhenology points img = some recs ∧
      recs.map SampleRecord.point
        = points.filter (fun pt => (evi pt.cell).isSome && (zone pt.cell).isSome) ∧
      ∀ r ∈ recs,
        r.get "EVI" = evi r.point.cell ∧ r.get "EVI" ≠ none ∧
        r.get "elev_band" = zone r.point.cell ∧ r.get "elev_band" ≠ none ∧
        r.date = formatDate img.time_start ∧ r.year = yearOf img.time_start ∧
        r.doy = doyOf img.time_start ∧ r.satellite = img.satellite := by
  unfold sampleForPhenology
  rw [selectBands_evi_zone img.bands evi zone hE hZ]
  refine ⟨_, rfl, ?_, ?_⟩
  · rw [List.map_map, ← sampleRegions_points]
    rfl
  · intro r hr
    rw [List.mem_map] at hr
    obtain ⟨f, hf, rfl⟩ := hr
    obtain ⟨e, z, he, hz, hv⟩ := sampleRegions_values evi zone points f hf
    have hl := @lookup_evi_pair f.1 (formatDate img.time_start) img.satellite
      (yearOf img.time_start) (doyOf img.time_start) e z
    rw [← hv] at hl
    refine ⟨?_, ?_, ?_, ?_, rfl, rfl, rfl, rfl⟩
    · exact hl.1.trans he.symm
    · exact hl.1 ▸ Option.some_ne_none e
    · exact hl.2.trans hz.symm
    · exact hl.2 ▸ Option.some_ne_none z

/-- Instance of C7 on `exampleTerra` and the three points of `exampleRegion`. -/
theorem sampleForPhenology_inner_join_witness :
    ∃ recs, sampleForPhenology exampleRegion exampleTerra = some recs ∧
      recs.map SampleRecord.point
        = exampleRegion.filter (fun pt =>
            (((fun p => if p = (0, 0) ∨ p = (0, 1) then some (1 / 4) else none) : Band)
              pt.cell).isSome &&
            (((fun p => if p.1 = 0 then some 1 else some 2) : Band) pt.cell).isSome) ∧
      ∀ r ∈ recs,
        r.get "EVI"
          = ((fun p => if p = (0, 0) ∨ p = (0, 1) then some (1 / 4) else none) : Band)
              r.point.cell ∧
        r.get "EVI" ≠ none ∧
        r.get "elev_band" = ((fun p => if p.1 = 0 then some 1 else some 2) : Band) r.point.cell ∧
        r.get "elev_band" ≠ none ∧
        r.date = formatDate exampleTerra.time_start ∧ r.year = yearOf exampleTerra.time_start ∧
        r.doy = doyOf exampleTerra.time_start ∧ r.satellite = exampleTerra.satellite :=
  sampleForPhenology_inner_join exampleRegion exampleTerra _ _ rfl rfl

/-! ## Theorems: per-band statistics -/

theorem reducerRows_filter_length (value key : Band) (geometry : List Pixel) (k : ℚ) :
    ((reducerRows value key geometry).filter (fun r => decide (r.2 = k))).length
      = (geometry.filter (fun p => (value p).isSome && decide (key p = some k))).length := by
  unfold reducerRows
  induction geometry with
  | nil => rfl
  | cons p rest ih =>
    rw [List.filterMap_cons, List.filter_cons]
    cases h1 : value p <;> cases h2 : key p
    · simpa [h1, h2] using ih
    · simpa [h1, h2] using ih
    · simpa [h1, h2] using ih
    · rename_i v z
      by_cases hz : z = k
      · simp [List.filter_cons, h1, h2, hz, ih]
      · simp [List.filter_cons, h1, h2, hz, ih]

theorem reducerRows_length (value key : Band) (geometry : List Pixel) :
    (reducerRows value key geometry).length
      = (geometry.filter (fun p => (value p).isSome && (key p).isSome)).length := by
  unfold reducerRows
  induction geometry with
  | nil => rfl
  | cons p rest ih =>
    rw [List.filterMap_cons, List.filter_cons]
    cases h1 : value p <;> cases h2 : key p <;> simp [h1, h2, ih]

theorem mem_reducerRows_keys (value key : Band) (geometry : List Pixel) (k : ℚ) :
    k ∈ (reducerRows value key geometry).map Prod.snd ↔
      ∃ p ∈ geometry, (value p).isSome ∧ key p = some k := by
  unfold reducerRows
  rw [List.mem_map]
  constructor
  · rintro ⟨r, hr, rfl⟩
    rw [List.mem_filterMap] at hr
    obtain ⟨p, hp, hpr⟩ := hr
    cases h1 : value p <;> cases h2 : key p <;> simp [h1, h2] at hpr
    subst hpr
    exact ⟨p, hp, by simp [h1], h2⟩
  · rintro ⟨p, hp, hv, hk⟩
    obtain ⟨v, hv⟩ := Option.isSome_iff_exists.mp hv
    refine ⟨(v, k), ?_, rfl⟩
    rw [List.mem_filterMap]
    exact ⟨p, hp, by simp [hv, hk]⟩

theorem count_keys_eq_filter_length (rows : List (ℚ × ℚ)) (k : ℚ) :
    (rows.map Prod.snd).count k = (rows.filter (fun r => decide (r.2 = k))).length := by
  induction rows with
  | nil => rfl
  | cons r rest ih =>
    by_cases h : r.2 = k
    · simp [List.filter_cons, h, ih]
    · simp [List.filter_cons, h, ih, List.count_cons]

theorem groups_keys (value key : Band) (geometry : List Pixel) :
    (reduceRegionGrouped value key geometry).map Group.elev_band
      = (((reducerRows value key geometry).map Prod.snd).dedup).insertionSort
          (fun a b => a ≤ b) := by
  unfold reduceRegionGrouped
  simp only [List.map_map]
  exact List.map_id _

theorem groups_counts (value key : Band) (geometry : List Pixel) :
    (reduceRegionGrouped value key geometry).map Group.count
      = ((((reducerRows value key geometry).map Prod.snd).dedup).insertionSort
          (fun a b => a ≤ b)).map
          (fun k => ((reducerRows value key geometry).map Prod.snd).count k) := by
  unfold reduceRegionGrouped
  simp only [List.map_map]
  apply List.map_congr_left
  intro k _
  simp only [Function.comp, List.length_map]
  exact (count_keys_eq_filter_length _ k).symm

theorem mem_groups (value key : Band) (geometry : List Pixel) (g : Group)
    (hg : g ∈ reduceRegionGrouped value key geometry) :
    g.elev_band ∈ (reducerRows value key geometry).map Prod.snd ∧
    g.count = (geometry.filter
      (fun p => (value p).isSome && decide (key p = some g.elev_band))).length := by
  unfold reduceRegionGrouped at hg
  rw [List.mem_map] at hg
  obtain ⟨k, hk, rfl⟩ := hg
  rw [(List.perm_insertionSort _ _).mem_iff, List.mem_dedup] at hk
  refine ⟨hk, ?_⟩
  simp only [List.length_map]
  exact reducerRows_filter_length value key geometry k

theorem bandPhenologyStats_eq (catGeom : List Pixel) (band250 : Band) (img : Image) (evi : Band)
    (h : selectBand "EVI" img.bands = some evi) :
    ∃ recs, bandPhenologyStats catGeom band250 img = some recs ∧
      recs.map StatRecord.elev_band
        = (reduceRegionGrouped evi band250 catGeom).map Group.elev_band ∧
      recs.map StatRecord.n_pixels = (reduceRegionGrouped evi band250 catGeom).map Group.count := by
  unfold bandPhenologyStats
  rw [h]
  refine ⟨_, rfl, ?_, ?_⟩
  · rw [List.map_map]; rfl
  · rw [List.map_map]; rfl

theorem groups_keys_nodup (value key : Band) (geometry : List Pixel) :
    ((reduceRegionGrouped value key geometry).map Group.elev_band).Nodup := by
  rw [groups_keys]
  exact (List.perm_insertionSort _ _).nodup_iff.mpr (List.nodup_dedup _)

theorem mem_groups_keys (value key : Band) (geometry : List Pixel) (z : ℚ) :
    z ∈ (reduceRegionGrouped value key geometry).map Group.elev_band ↔
      ∃ p ∈ geometry, (value p).isSome ∧ key p = some z := by
  rw [groups_keys, (List.perm_insertionSort _ _).mem_iff, List.mem_dedup, mem_reducerRows_keys]

/-- C5: for an image with an `EVI` band, `bandPhenologyStats` returns exactly one record for
each zone value that some AOI cell carries together with an unmasked EVI, and none for any
other value; no two records share `elev_band`, and each record has `n_pixels ≥ 1`, the number
of AOI cells of its zone with unmasked EVI. -/
theorem bandPhenologyStats_one_record_per_zone (catGeom : List Pixel) (band250 : Band)
    (img : Image) (evi : Band) (h : selectBand "EVI" img.bands = some evi) :
    ∃ recs, bandPhenologyStats catGeom band250 img = some recs ∧
      (∀ z : ℚ, (∃ p ∈ catGeom, (evi p).isSome ∧ band250 p = some z) →
        (recs.map StatRecord.elev_band).count z = 1) ∧
      (∀ z : ℚ, (¬ ∃ p ∈ catGeom, (evi p).isSome ∧ band250 p = some z) →
        (recs.map StatRecord.elev_band).count z = 0) ∧
      (recs.map StatRecord.elev_band).Nodup ∧
      ∀ r ∈ recs, 1 ≤ r.n_pixels ∧
        r.n_pixels = (catGeom.filter
          (fun p => (evi p).isSome && decide (band250 p = some r.elev_band))).length := by
  unfold bandPhenologyStats
  rw [h]
  have hk : ∀ l : List Group, (l.map (fun d => ({
        date := formatDate img.time_start
        year := yearOf img.time_start
        doy := doyOf img.time_start
        satellite := img.satellite
        elev_band := d.elev_band
        EVI_mean := d.mean
        EVI_std_sq := d.stdDevSq
        n_pixels := d.count } : StatRecord))).map StatRecord.elev_band
      = l.map Group.elev_band := by
    intro l
    rw [List.map_map]; rfl
  refine ⟨_, rfl, ?_, ?_, ?_, ?_⟩
  · intro z hz
    rw [hk]
    exact List.count_eq_one_of_mem (groups_keys_nodup evi band250 catGeom)
      ((mem_groups_keys evi band250 catGeom z).mpr hz)
  · intro z hz
    rw [hk]
    exact List.count_eq_zero_of_not_mem
      (fun hm => hz ((mem_groups_keys evi band250 catGeom z).mp hm))
  · rw [hk]
    exact groups_keys_nodup evi band250 catGeom
  · intro r hr
    rw [List.mem_map] at hr
    obtain ⟨g, hg, rfl⟩ := hr
    obtain ⟨hmem, hcount⟩ := mem_groups evi band250 catGeom g hg
    refine ⟨?_, hcount⟩
    show 1 ≤ g.count
    rw [hcount, ← reducerRows_filter_length, ← count_keys_eq_filter_length]
    exact List.count_pos_iff.mpr hmem

/-- Instance of C5 on `exampleTerra` over the three cells of `exampleGeom`. -/
theorem bandPhenologyStats_one_record_per_zone_witness :
    ∃ recs, bandPhenologyStats exampleGeom exampleBand250 exampleTerra = some recs ∧
      (∀ z : ℚ, (∃ p ∈ exampleGeom,
          (((fun p => if p = (0, 0) ∨ p = (0, 1) then some (1 / 4) else none) : Band) p).isSome ∧
          exampleBand250 p = some z) →
        (recs.map StatRecord.elev_band).count z = 1) ∧
      (∀ z : ℚ, (¬ ∃ p ∈ exampleGeom,
          (((fun p => if p = (0, 0) ∨ p = (0, 1) then some (1 / 4) else none) : Band) p).isSome ∧
          exampleBand250 p = some z) →
        (recs.map StatRecord.elev_band).count z = 0) ∧
      (recs.map StatRecord.elev_band).Nodup ∧
      ∀ r ∈ recs, 1 ≤ r.n_pixels ∧
        r.n_pixels = (exampleGeom.filter
          (fun p =>
            (((fun p => if p = (0, 0) ∨ p = (0, 1) then some (1 / 4) else none) : Band) p).isSome
              && decide (exampleBand250 p = some r.elev_band))).length :=
  bandPhenologyStats_one_record_per_zone exampleGeom exampleBand250 exampleTerra _ rfl

/-- C6: for an image with an `EVI` band, the `n_pixels` of the records of
`bandPhenologyStats` add up to the number of AOI cells unmasked in both the EVI band and the
zone band, which is at most the number of AOI cells with unmasked EVI. -/
theorem bandPhenologyStats_pixel_sum (catGeom : List Pixel) (band250 : Band)
    (img : Image) (evi : Band) (h : selectBand "EVI" img.bands = some evi) :
    ∃ recs, bandPhenologyStats catGeom band250 img = some recs ∧
      (recs.map StatRecord.n_pixels).sum
        = (catGeom.filter (fun p => (evi p).isSome && (band250 p).isSome)).length ∧
      (recs.map StatRecord.n_pixels).sum
        ≤ (catGeom.filter (fun p => (evi p).isSome)).length := by
  obtain ⟨recs, hrecs, _, hn⟩ := bandPhenologyStats_eq catGeom band250 img evi h
  have hsum : (recs.map StatRecord.n_pixels).sum
      = (catGeom.filter (fun p => (evi p).isSome && (band250 p).isSome)).length := by
    rw [hn, groups_counts,
      ((List.perm_insertionSort _ _).map _).sum_eq,
      List.sum_map_count_dedup_eq_length, List.length_map, reducerRows_length]
  refine ⟨recs, hrecs, hsum, ?_⟩
  rw [hsum]
  apply List.Sublist.length_le
  apply List.monotone_filter_right
  intro p hp
  simp only [Bool.and_eq_true] at hp
  exact hp.1

/-- Instance of C6 on `exampleTerra` over the three cells of `exampleGeom`. -/
theorem bandPhenologyStats_pixel_sum_witness :
    ∃ recs, bandPhenologyStats exampleGeom exampleBand250 exampleTerra = some recs ∧
      (recs.map StatRecord.n_pixels).sum
        = (exampleGeom.filter (fun p =>
            (((fun p => if p = (0, 0) ∨ p = (0, 1) then some (1 / 4) else none) : Band) p).isSome
              && (exampleBand250 p).isSome)).length ∧
      (recs.map StatRecord.n_pixels).sum
        ≤ (exampleGeom.filter (fun p =>
            (((fun p => if p = (0, 0) ∨ p = (0, 1) then some (1 / 4) else none) : Band)
              p).isSome)).length :=
  bandPhenologyStats_pixel_sum exampleGeom exampleBand250 exampleTerra _ rfl

end Phenology


